import Mathlib

/-!
Shallow embedding of the atlasapi retrieval pipeline
(src/api/vector_search.py, src/api/database.py, src/knowledge/processor.py,
src/knowledge/embeddings.py, src/config/prompts.py) together with theorems
settling the specification claims about it.

Strings are modelled through their character lists; the Python string
helpers used by the code (strip, lower, split, replace, regex splitting on
a character class) are embedded as executable Lean functions with the same
semantics.  MD5 digests are modelled by the texts they are computed from:
the digest is a fixed function of its input text, so two cache keys agree
exactly when the digested texts agree (collisions aside), and every claim
here is about which text gets digested.
-/

/-- Whitespace test used by Python's str.strip and str.split defaults. -/
def wsChar (c : Char) : Bool := c.isWhitespace

/-- Python str.strip on a character list: drop whitespace at both ends. -/
def stripChars (l : List Char) : List Char :=
  ((l.dropWhile wsChar).reverse.dropWhile wsChar).reverse

/-- Python str.strip. -/
def pyStrip (s : String) : String := String.mk (stripChars s.data)

/-- Python str.lower, mapping each character (source data is ASCII-cased). -/
def pyLower (s : String) : String := String.mk (s.data.map Char.toLower)

/-- Python str.replace with a fixed pattern: scan left to right, replacing
non-overlapping occurrences.  Structural recursion on a fuel argument (one
unit per consumed character) keeps the function kernel-reducible; callers
pass the input length as fuel, which always suffices. -/
def replaceFuel (pat rep : List Char) : Nat → List Char → List Char
  | _, [] => []
  | 0, l => l
  | fuel + 1, c :: cs =>
    if pat.isPrefixOf (c :: cs) then
      rep ++ replaceFuel pat rep fuel (cs.drop (pat.length - 1))
    else
      c :: replaceFuel pat rep fuel cs

/-- Python str.replace old new, lifted to strings. -/
def pyReplace (s pat rep : String) : String :=
  String.mk (replaceFuel pat.data rep.data s.data.length s.data)

/-- Python re.split on a one-or-more character class: split at each maximal
run of characters satisfying p, keeping empty pieces at either end.  Fueled
the same way as replaceFuel. -/
def splitRunsFuel (p : Char → Bool) : Nat → List Char → List (List Char)
  | _, [] => [[]]
  | 0, l => [l]
  | fuel + 1, c :: cs =>
    if p c then
      [] :: splitRunsFuel p fuel (cs.dropWhile p)
    else
      match splitRunsFuel p fuel cs with
      | [] => [[c]]
      | piece :: rest => (c :: piece) :: rest

/-- Python re.split on a one-or-more character class. -/
def splitRuns (p : Char → Bool) (l : List Char) : List (List Char) :=
  splitRunsFuel p l.length l

/-- Python str.split with no separator: whitespace runs, empties dropped. -/
def pySplitWs (s : String) : List String :=
  ((splitRuns wsChar s.data).filter (fun piece => ! piece.isEmpty)).map String.mk

/-- Python sep.join for a list of strings. -/
def joinSep (sep : String) : List String → String
  | [] => ""
  | [x] => x
  | x :: y :: xs => x ++ sep ++ joinSep sep (y :: xs)

/-- Greeting and pleasantry substrings removed by normalize_query
(src/api/vector_search.py lines 312 to 325), in source order. -/
def greetings : List String :=
  ["hello", "hi", "hey", "good morning", "good afternoon", "good evening",
   "bonjour", "salut", "مرحبا", "please", "thanks", "thank you"]

/-- VectorSearchEngine.normalize_query: lowercase and strip the query, remove
each greeting substring in source order, then collapse whitespace runs into
single spaces (src/api/vector_search.py lines 300 to 335). -/
def normalize_query (query : String) : String :=
  let query_lower := pyStrip (pyLower query)
  let removed := greetings.foldl (fun acc g => pyReplace acc g "") query_lower
  joinSep " " (pySplitWs removed)

/-- Text whose MD5 digest VectorSearchEngine.get_query_hash uses as the cache
key on the lookup path: the normalized query (src/api/vector_search.py lines
337 to 348). -/
def lookupKeyText (query : String) : String := normalize_query query

/-- Text whose MD5 digest AtlasDatabase.save_cached_response uses as the
cache key on the store path: the raw query text lowercased, with no greeting
removal and no whitespace collapsing (src/api/database.py line 330). -/
def saveKeyText (query_text : String) : String := pyLower query_text

/-- Cache table model keyed by the digested text, mirroring the
atlas_insights_cache table keyed by query_hash with an upsert on conflict. -/
def upsertEntry (cache : List (String × String)) (key val : String) :
    List (String × String) :=
  if cache.any (fun kv => kv.1 == key) then
    cache.map (fun kv => if kv.1 == key then (key, val) else kv)
  else
    cache ++ [(key, val)]

/-- AtlasDatabase.save_cached_response: upsert under the store-path key
(src/api/database.py lines 308 to 348; expiry is not modelled because no
claim concerns it). -/
def save_cached_response (cache : List (String × String))
    (query_text cached_response : String) : List (String × String) :=
  upsertEntry cache (saveKeyText query_text) cached_response

/-- AtlasDatabase.get_cached_response: first entry stored under the given
key (src/api/database.py lines 270 to 306). -/
def get_cached_response (cache : List (String × String)) (query_hash : String) :
    Option String :=
  (cache.find? (fun kv => kv.1 == query_hash)).map (fun kv => kv.2)

/-- VectorSearchEngine.check_cache: look up under the lookup-path key
(src/api/vector_search.py lines 350 to 367). -/
def check_cache (cache : List (String × String)) (query : String) : Option String :=
  get_cached_response cache (lookupKeyText query)

/-- C1: the store path and the lookup path digest different texts, so the
claimed shared cache key fails.  Storing the spec scenario query and then
looking up either scenario query misses: the store digests the merely
lowercased raw text while the lookup digests the fully normalized text,
even though both scenario queries normalize to the same text. -/
theorem C1_store_lookup_key_mismatch :
    saveKeyText "Hello, how can I reduce AWS costs?"
        ≠ lookupKeyText "Hello, how can I reduce AWS costs?"
      ∧ lookupKeyText "hey thanks, how can I reduce AWS costs?"
          = lookupKeyText "Hello, how can I reduce AWS costs?"
      ∧ check_cache
          (save_cached_response [] "Hello, how can I reduce AWS costs?" "cached answer")
          "Hello, how can I reduce AWS costs?" = none
      ∧ check_cache
          (save_cached_response [] "Hello, how can I reduce AWS costs?" "cached answer")
          "hey thanks, how can I reduce AWS costs?" = none := by
  decide

/-- Stable descending insertion, modelling Python list.sort with a key and
reverse set: the inserted element passes entries with strictly larger keys
and stops before the first entry whose key is not larger, so entries with
equal keys keep their source order. -/
def insertDesc {α β : Type} [LinearOrder β] (key : α → β) (x : α) : List α → List α
  | [] => [x]
  | y :: ys => if key x < key y then y :: insertDesc key x ys else x :: y :: ys

/-- Stable sort by descending key, as produced by Python list.sort with a
key function and reverse set (sorted descending, ties in source order). -/
def sortDescBy {α β : Type} [LinearOrder β] (key : α → β) : List α → List α
  | [] => []
  | x :: xs => insertDesc key x (sortDescBy key xs)

/-- Membership in an insertion is membership in the inserted element or the
original list. -/
theorem insertDesc_mem {α β : Type} [LinearOrder β] (key : α → β) (x z : α) :
    (l : List α) → (z ∈ insertDesc key x l ↔ z = x ∨ z ∈ l)
  | [] => by simp [insertDesc]
  | y :: ys => by
    rw [insertDesc]
    split
    · rw [List.mem_cons, insertDesc_mem key x z ys, List.mem_cons]
      tauto
    · simp [List.mem_cons]

/-- Inserting into a descending-pairwise list keeps it descending-pairwise. -/
theorem insertDesc_pairwise {α β : Type} [LinearOrder β] (key : α → β) (x : α) :
    (l : List α) → List.Pairwise (fun a b => key b ≤ key a) l →
      List.Pairwise (fun a b => key b ≤ key a) (insertDesc key x l)
  | [], _ => by simp [insertDesc]
  | y :: ys, h => by
    rcases List.pairwise_cons.1 h with ⟨hy, hys⟩
    rw [insertDesc]
    split
    · refine List.pairwise_cons.2 ⟨?_, insertDesc_pairwise key x ys hys⟩
      intro z hz
      rcases (insertDesc_mem key x z ys).1 hz with rfl | hz'
      · exact le_of_lt (by assumption)
      · exact hy z hz'
    · refine List.pairwise_cons.2 ⟨?_, h⟩
      intro z hz
      rcases List.mem_cons.1 hz with rfl | hz'
      · exact not_lt.1 (by assumption)
      · exact le_trans (hy z hz') (not_lt.1 (by assumption))

/-- The stable descending sort is descending-pairwise. -/
theorem sortDescBy_pairwise {α β : Type} [LinearOrder β] (key : α → β) :
    (l : List α) → List.Pairwise (fun a b => key b ≤ key a) (sortDescBy key l)
  | [] => by simp [sortDescBy]
  | x :: xs => insertDesc_pairwise key x _ (sortDescBy_pairwise key xs)

/-- Restricting an insertion to one key value is just consing when the value
matches: no element with an equal key is jumped over. -/
theorem insertDesc_filter {α β : Type} [LinearOrder β] (key : α → β) (v : β) (x : α) :
    (l : List α) →
      (insertDesc key x l).filter (fun a => decide (key a = v))
        = (x :: l).filter (fun a => decide (key a = v))
  | [] => rfl
  | y :: ys => by
    rw [insertDesc]
    split
    · have ih := insertDesc_filter key v x ys
      by_cases hy : key y = v
      · have hx : ¬ key x = v := by
          intro hv
          exact absurd (hv.trans hy.symm) (ne_of_lt (by assumption))
        simp only [List.filter_cons, ih]
        simp [hx, hy]
      · simp only [List.filter_cons, ih]
        by_cases hx : key x = v <;> simp [hx, hy]
    · rfl

/-- Stability of the sort: the subsequence at any fixed key value is exactly
the source subsequence at that value. -/
theorem sortDescBy_filter {α β : Type} [LinearOrder β] (key : α → β) (v : β) :
    (l : List α) →
      (sortDescBy key l).filter (fun a => decide (key a = v))
        = l.filter (fun a => decide (key a = v))
  | [] => rfl
  | x :: xs => by
    rw [sortDescBy, insertDesc_filter key v x (sortDescBy key xs), List.filter_cons,
      List.filter_cons, sortDescBy_filter key v xs]

/-- Row of the atlas_core_knowledge table as consumed by the search paths. -/
structure KnowledgeRow where
  id : Nat
  content : String
  category : Option String
  embedding : List ℚ
deriving DecidableEq

/-- Search result shape shared by both retrieval paths. -/
structure SearchResult where
  id : Nat
  content : String
  category : Option String
  similarity : ℚ
deriving DecidableEq

/-- Sum of pairwise products, np.dot on equal-length vectors. -/
def dotList (v w : List ℚ) : ℚ := (List.zipWith (fun a b => a * b) v w).sum

/-- Squared Euclidean norm; np.linalg.norm is the square root of this. -/
def normSqList (v : List ℚ) : ℚ := (v.map (fun a => a * a)).sum

/-- Cosine similarity as computed by EmbeddingGenerator.cosine_similarity
(src/knowledge/embeddings.py lines 203 to 225) and by the textually
identical VectorSearchEngine._cosine_similarity (src/api/vector_search.py
lines 150 to 164): dot product over the product of the norms, guarded to
return 0.0 when either norm is zero.  Vector entries are exact rationals
(every machine float is a rational); np.linalg.norm's square root is
abstracted as the parameter sqrtQ, and each theorem assumes only the
properties of the true square root that the source relies on. -/
def cosine_similarity (sqrtQ : ℚ → ℚ) (vec1 vec2 : List ℚ) : ℚ :=
  let dot_product := dotList vec1 vec2
  let norm1 := sqrtQ (normSqList vec1)
  let norm2 := sqrtQ (normSqList vec2)
  if norm1 = 0 ∨ norm2 = 0 then 0 else dot_product / (norm1 * norm2)

/-- Scoring step of the fallback path: each sampled chunk paired with its
client-side similarity against the query embedding, in sample order. -/
def score_sample (sim : List ℚ → List ℚ → ℚ) (query_embedding : List ℚ)
    (sample : List KnowledgeRow) : List SearchResult :=
  sample.map (fun chunk =>
    { id := chunk.id, content := chunk.content, category := chunk.category,
      similarity := sim query_embedding chunk.embedding })

/-- VectorSearchEngine._fallback_search (src/api/vector_search.py lines 116
to 148): score the bounded sample client-side with the injected similarity
function (self._cosine_similarity in the source), sort stably by descending
similarity, truncate to top_k.  No similarity threshold is applied. -/
def fallback_search (sim : List ℚ → List ℚ → ℚ) (sample : List KnowledgeRow)
    (query_embedding : List ℚ) (top_k : Nat) : List SearchResult :=
  (sortDescBy (fun r => r.similarity) (score_sample sim query_embedding sample)).take top_k

/-- The match_knowledge SQL function shipped with the source
(SUPABASE_MATCH_FUNCTION_SQL, src/api/vector_search.py lines 417 to 445):
similarity is one minus the cosine distance, rows must satisfy
similarity > match_threshold, and rows are returned by ascending distance
(descending similarity) limited to match_count. -/
def match_knowledge (sim : List ℚ → List ℚ → ℚ) (rows : List KnowledgeRow)
    (query_embedding : List ℚ) (match_threshold : ℚ) (match_count : Nat) :
    List SearchResult :=
  (sortDescBy (fun r => r.similarity)
      ((score_sample sim query_embedding rows).filter
        (fun r => decide (match_threshold < r.similarity)))).take match_count

/-- VectorSearchEngine.search_knowledge (src/api/vector_search.py lines 72
to 114).  The RPC call is modelled as a function of the two arguments the
code passes: match_threshold set to one minus similarity_threshold, and
match_count set to top_k; a raised exception is an error value.  A
successful call with non-empty data returns that data; empty data or an
error takes the fallback path, to which similarity_threshold is never
passed. -/
def search_knowledge (sim : List ℚ → List ℚ → ℚ)
    (rpc : ℚ → Nat → Except Unit (List SearchResult))
    (sample : List KnowledgeRow) (query_embedding : List ℚ)
    (top_k : Nat) (similarity_threshold : ℚ) : List SearchResult :=
  match rpc (1 - similarity_threshold) top_k with
  | .ok data =>
      if data.isEmpty then fallback_search sim sample query_embedding top_k else data
  | .error _ => fallback_search sim sample query_embedding top_k

/-- Squared norm of an all-zero vector is zero. -/
theorem normSq_eq_zero_of_allzero : (v : List ℚ) → (∀ x ∈ v, x = 0) → normSqList v = 0
  | [], _ => rfl
  | x :: xs, h => by
    have hx : x = 0 := h x (by simp)
    have hxs := normSq_eq_zero_of_allzero xs (fun y hy => h y (by simp [hy]))
    simp only [normSqList, List.map_cons, List.sum_cons] at hxs ⊢
    rw [hx, hxs]
    simp

/-- C9: the fallback result list is pairwise non-increasing in similarity,
the entries at any fixed similarity value form a sublist of the scored
sample (so equal-similarity entries keep their source order), and at most
top_k entries are returned. -/
theorem C9_fallback_sorted_stable_truncated (sim : List ℚ → List ℚ → ℚ)
    (sample : List KnowledgeRow) (query_embedding : List ℚ) (top_k : Nat) :
    List.Pairwise (fun a b => b.similarity ≤ a.similarity)
        (fallback_search sim sample query_embedding top_k)
      ∧ (∀ v : ℚ,
          List.Sublist
            ((fallback_search sim sample query_embedding top_k).filter
              (fun r => decide (r.similarity = v)))
            ((score_sample sim query_embedding sample).filter
              (fun r => decide (r.similarity = v))))
      ∧ (fallback_search sim sample query_embedding top_k).length ≤ top_k := by
  refine ⟨?_, ?_, ?_⟩
  · exact List.Pairwise.sublist (List.take_sublist _ _)
      (sortDescBy_pairwise (fun r : SearchResult => r.similarity)
        (score_sample sim query_embedding sample))
  · intro v
    have h1 : List.Sublist
        ((fallback_search sim sample query_embedding top_k).filter
          (fun r => decide (r.similarity = v)))
        ((sortDescBy (fun r : SearchResult => r.similarity)
              (score_sample sim query_embedding sample)).filter
            (fun r => decide (r.similarity = v))) :=
      List.Sublist.filter _ (List.take_sublist _ _)
    rw [sortDescBy_filter (fun r : SearchResult => r.similarity) v
      (score_sample sim query_embedding sample)] at h1
    exact h1
  · exact List.length_take_le _ _

/-- C10: the zero-norm guard makes cosine similarity total.  Assuming only
that the square root of zero is zero, an all-zero operand yields similarity
zero, and whenever the guard falls through to the division the divisor,
the product of the two norms, is non-zero. -/
theorem C10_cosine_zero_guard (sqrtQ : ℚ → ℚ) (vec1 vec2 : List ℚ)
    (hzero : sqrtQ 0 = 0) :
    ((∀ x ∈ vec1, x = 0) ∨ (∀ x ∈ vec2, x = 0) →
        cosine_similarity sqrtQ vec1 vec2 = 0)
      ∧ (sqrtQ (normSqList vec1) ≠ 0 → sqrtQ (normSqList vec2) ≠ 0 →
          sqrtQ (normSqList vec1) * sqrtQ (normSqList vec2) ≠ 0
            ∧ cosine_similarity sqrtQ vec1 vec2
                = dotList vec1 vec2
                    / (sqrtQ (normSqList vec1) * sqrtQ (normSqList vec2))) := by
  constructor
  · intro h
    have hn : sqrtQ (normSqList vec1) = 0 ∨ sqrtQ (normSqList vec2) = 0 := by
      rcases h with h | h
      · exact Or.inl (by rw [normSq_eq_zero_of_allzero vec1 h, hzero])
      · exact Or.inr (by rw [normSq_eq_zero_of_allzero vec2 h, hzero])
    simp only [cosine_similarity]
    exact if_pos hn
  · intro h1 h2
    refine ⟨mul_ne_zero h1 h2, ?_⟩
    simp only [cosine_similarity]
    exact if_neg (not_or.2 ⟨h1, h2⟩)

/-- Witness: a zero vector operand produces similarity zero. -/
theorem C10_cosine_zero_guard_witness :
    cosine_similarity id [0, 0] [3, 4] = 0 :=
  (C10_cosine_zero_guard id [0, 0] [3, 4] rfl).1 (Or.inl (by decide))

/-- RPC stub standing for a primary vector-search call that succeeds and
returns no rows. -/
def rpcEmptyOk : ℚ → Nat → Except Unit (List SearchResult) := fun _ _ => Except.ok []

/-- C3 as stated is false on the code: a primary call that succeeds with an
empty data list still triggers the client-side fallback, and the fallback's
results, not the primary's empty result list, are returned. -/
theorem C3_counterexample_fallback_after_success :
    rpcEmptyOk (1 - (0 : ℚ)) 3 = Except.ok []
      ∧ search_knowledge (cosine_similarity id) rpcEmptyOk
          [{ id := 1, content := "chunk", category := none, embedding := [1, 0] }]
          [1, 0] 3 0
        = [{ id := 1, content := "chunk", category := none, similarity := 1 }] := by
  refine ⟨rfl, ?_⟩
  norm_num [search_knowledge, rpcEmptyOk, fallback_search, score_sample, sortDescBy,
    insertDesc, cosine_similarity, dotList, normSqList]

/-- C3 amended: the fallback path is taken exactly when the primary call
fails or returns an empty data list; a successful primary call with
non-empty data returns that data unchanged and the fallback result is not
consulted. -/
theorem C3_fallback_only_on_failure_or_empty (sim : List ℚ → List ℚ → ℚ)
    (rpc : ℚ → Nat → Except Unit (List SearchResult))
    (sample : List KnowledgeRow) (query_embedding : List ℚ)
    (top_k : Nat) (similarity_threshold : ℚ) :
    (∀ data : List SearchResult,
        rpc (1 - similarity_threshold) top_k = Except.ok data → data ≠ [] →
        search_knowledge sim rpc sample query_embedding top_k similarity_threshold = data)
      ∧ (rpc (1 - similarity_threshold) top_k = Except.ok [] →
          search_knowledge sim rpc sample query_embedding top_k similarity_threshold
            = fallback_search sim sample query_embedding top_k)
      ∧ (∀ e, rpc (1 - similarity_threshold) top_k = Except.error e →
          search_knowledge sim rpc sample query_embedding top_k similarity_threshold
            = fallback_search sim sample query_embedding top_k) := by
  refine ⟨?_, ?_, ?_⟩
  · intro data h hne
    rw [search_knowledge, h]
    cases data with
    | nil => exact absurd rfl hne
    | cons d ds => rfl
  · intro h
    rw [search_knowledge, h]
    rfl
  · intro e h
    rw [search_knowledge, h]

/-- Witness: a successful non-empty primary result is returned unchanged. -/
theorem C3_fallback_only_on_failure_or_empty_witness :
    search_knowledge (fun _ _ => 0)
        (fun _ _ => Except.ok [{ id := 5, content := "c", category := none, similarity := 1 }])
        [] [1] 3 0
      = [{ id := 5, content := "c", category := none, similarity := 1 }] :=
  (C3_fallback_only_on_failure_or_empty (fun _ _ => 0)
      (fun _ _ => Except.ok [{ id := 5, content := "c", category := none, similarity := 1 }])
      [] [1] 3 0).1 _ rfl (by simp)

/-- Square root stub correct at the squared norms used by the C4 inputs. -/
def sqrtAt : ℚ → ℚ := fun q => if q = 25 then 5 else q

/-- C4 fails on both retrieval paths at concrete inputs.  Primary path: with
similarity_threshold 7/10 the code passes match_threshold 1 - 7/10 and the
match_knowledge SQL compares the cosine similarity itself against that
value, so a row of similarity 3/5 is returned although 3/5 < 7/10.
Fallback path: search_knowledge never passes similarity_threshold to
fallback_search, so after a primary failure a row of similarity 0 is
returned under the same 7/10 threshold. -/
theorem C4_threshold_not_enforced :
    match_knowledge (cosine_similarity sqrtAt)
        [{ id := 1, content := "A", category := none, embedding := [5, 0] }]
        [3, 4] (1 - 7/10) 3
      = [{ id := 1, content := "A", category := none, similarity := 3/5 }]
      ∧ (3/5 : ℚ) < 7/10
      ∧ search_knowledge (cosine_similarity sqrtAt) (fun _ _ => Except.error ())
          [{ id := 2, content := "B", category := none, embedding := [0, 1] }]
          [1, 0] 3 (7/10)
        = [{ id := 2, content := "B", category := none, similarity := 0 }]
      ∧ (0 : ℚ) < 7/10 := by
  refine ⟨?_, by norm_num, ?_, by norm_num⟩
  · norm_num [match_knowledge, score_sample, sortDescBy, insertDesc,
      cosine_similarity, dotList, normSqList, sqrtAt, List.filter]
  · norm_num [search_knowledge, fallback_search, score_sample, sortDescBy, insertDesc,
      cosine_similarity, dotList, normSqList, sqrtAt]

/-- Row of the atlas_conversations table as read by the history fetch. -/
structure ConversationRow where
  user_id : Nat
  user_message : String
  bot_response : String
  created_at : Nat
deriving DecidableEq

/-- AtlasDatabase.get_recent_conversations (src/api/database.py lines 135
to 164): the user's conversations ordered by created_at descending (newest
first), limited to the requested count. -/
def get_recent_conversations (table : List ConversationRow) (user_id limit : Nat) :
    List ConversationRow :=
  (sortDescBy (fun r : ConversationRow => r.created_at)
      (table.filter (fun r => r.user_id == user_id))).take limit

/-- Memory fact fields consumed by the context builder. -/
structure MemoryFact where
  fact_key : String
  fact_value : String
deriving DecidableEq

/-- Token breakdown reported in the bundle's token_count entry. -/
structure TokenCounts where
  knowledge : Nat
  history : Nat
  memory : Nat
  query : Nat
  total : Nat
deriving DecidableEq

/-- Context bundle returned by VectorSearchEngine.build_context. -/
structure ContextBundle where
  knowledge_chunks : List SearchResult
  conversation_history : List ConversationRow
  user_memory : List MemoryFact
  query : String
  query_embedding : List ℚ
  token_count : TokenCounts
deriving DecidableEq

/-- VectorSearchEngine.build_context after the component fetches
(src/api/vector_search.py lines 166 to 262): per-component token counting
with the injected token counter tc, then the fixed-cap trimming of
_trim_context (lines 264 to 294, inlined here: knowledge capped at 3,
memory at 5, history at 3, query and embedding kept) when the total
exceeds the budget.  The token_count entry is written after trimming but
from the counts computed before it, exactly as in the source. -/
def build_context (tc : String → Nat) (knowledge_chunks : List SearchResult)
    (conversation_history : List ConversationRow) (user_memory : List MemoryFact)
    (query : String) (query_embedding : List ℚ) (max_context_tokens : Nat) :
    ContextBundle :=
  let knowledge_tokens := (knowledge_chunks.map (fun chunk => tc chunk.content)).sum
  let history_tokens := (conversation_history.map
      (fun conv => tc (conv.user_message ++ conv.bot_response))).sum
  let memory_tokens := (user_memory.map
      (fun mem => tc (mem.fact_key ++ ": " ++ mem.fact_value))).sum
  let query_tokens := tc query
  let total_tokens := knowledge_tokens + history_tokens + memory_tokens + query_tokens
  let counts : TokenCounts :=
    { knowledge := knowledge_tokens, history := history_tokens,
      memory := memory_tokens, query := query_tokens, total := total_tokens }
  if max_context_tokens < total_tokens then
    { knowledge_chunks := knowledge_chunks.take 3,
      conversation_history := conversation_history.take 3,
      user_memory := user_memory.take 5,
      query := query, query_embedding := query_embedding, token_count := counts }
  else
    { knowledge_chunks := knowledge_chunks,
      conversation_history := conversation_history,
      user_memory := user_memory,
      query := query, query_embedding := query_embedding, token_count := counts }

/-- Context build with the history fetched from the conversations store,
as done by build_context step 3 (src/api/vector_search.py lines 196 to
199). -/
def build_context_for_user (tc : String → Nat) (table : List ConversationRow)
    (user_id : Nat) (knowledge_chunks : List SearchResult)
    (user_memory : List MemoryFact) (query : String) (query_embedding : List ℚ)
    (max_conversation_history max_context_tokens : Nat) : ContextBundle :=
  build_context tc knowledge_chunks
    (get_recent_conversations table user_id max_conversation_history)
    user_memory query query_embedding max_context_tokens

/-- Conversation sequence iterated by the prompt formatter when rendering
history into the prompt text: reversed conversation_history
(src/config/prompts.py lines 356 to 362). -/
def prompt_history_order (conversation_history : List ConversationRow) :
    List ConversationRow :=
  conversation_history.reverse

/-- The bundle's history is either the fetched history or its first three
turns, depending on trimming. -/
theorem build_context_history_cases (tc : String → Nat)
    (knowledge_chunks : List SearchResult) (conversation_history : List ConversationRow)
    (user_memory : List MemoryFact) (query : String) (query_embedding : List ℚ)
    (max_context_tokens : Nat) :
    (build_context tc knowledge_chunks conversation_history user_memory query
          query_embedding max_context_tokens).conversation_history
        = conversation_history
      ∨ (build_context tc knowledge_chunks conversation_history user_memory query
          query_embedding max_context_tokens).conversation_history
        = conversation_history.take 3 := by
  simp only [build_context]
  split
  · exact Or.inr rfl
  · exact Or.inl rfl

/-- C2 counterexample: with two stored turns the bundle's history is
newest-first (the most recent turn comes first, not last) and is not in
oldest-to-newest order. -/
theorem C2_counterexample_history_order :
    (build_context_for_user (fun s => s.length)
        [{ user_id := 1, user_message := "first question",
           bot_response := "first answer", created_at := 1 },
         { user_id := 1, user_message := "second question",
           bot_response := "second answer", created_at := 2 }]
        1 [] [] "query" [] 5 2000).conversation_history
      = [{ user_id := 1, user_message := "second question",
           bot_response := "second answer", created_at := 2 },
         { user_id := 1, user_message := "first question",
           bot_response := "first answer", created_at := 1 }]
      ∧ (build_context_for_user (fun s => s.length)
            [{ user_id := 1, user_message := "first question",
               bot_response := "first answer", created_at := 1 },
             { user_id := 1, user_message := "second question",
               bot_response := "second answer", created_at := 2 }]
            1 [] [] "query" [] 5 2000).conversation_history.getLast?
          = some { user_id := 1, user_message := "first question",
                   bot_response := "first answer", created_at := 1 }
      ∧ (1 : Nat) < 2 := by
  decide

/-- C2 amended: the assembler applies no reversal.  The bundle's history is
a prefix of the store's newest-first list (all of it untrimmed, its first
three turns when trimmed) and is ordered by non-increasing created_at, so
the most recent turn appears first, not last; the oldest-first order the
spec describes is produced downstream by the prompt formatter, whose
iteration order is the reverse of the bundle sequence and hence
non-decreasing in created_at. -/
theorem C2_history_newest_first (tc : String → Nat) (table : List ConversationRow)
    (user_id : Nat) (knowledge_chunks : List SearchResult)
    (user_memory : List MemoryFact) (query : String) (query_embedding : List ℚ)
    (max_conversation_history max_context_tokens : Nat) :
    (build_context_for_user tc table user_id knowledge_chunks user_memory query
          query_embedding max_conversation_history max_context_tokens).conversation_history
        <+: get_recent_conversations table user_id max_conversation_history
      ∧ List.Pairwise (fun a b => b.created_at ≤ a.created_at)
          (build_context_for_user tc table user_id knowledge_chunks user_memory query
            query_embedding max_conversation_history max_context_tokens).conversation_history
      ∧ List.Pairwise (fun a b => a.created_at ≤ b.created_at)
          (prompt_history_order
            (build_context_for_user tc table user_id knowledge_chunks user_memory query
              query_embedding max_conversation_history
              max_context_tokens).conversation_history) := by
  have hfetch : List.Pairwise
      (fun a b : ConversationRow => b.created_at ≤ a.created_at)
      (get_recent_conversations table user_id max_conversation_history) :=
    List.Pairwise.sublist (List.take_sublist _ _)
      (sortDescBy_pairwise (fun r : ConversationRow => r.created_at)
        (table.filter (fun r => r.user_id == user_id)))
  have hcases := build_context_history_cases tc knowledge_chunks
    (get_recent_conversations table user_id max_conversation_history)
    user_memory query query_embedding max_context_tokens
  have hmain : (build_context_for_user tc table user_id knowledge_chunks user_memory query
        query_embedding max_conversation_history max_context_tokens).conversation_history
      <+: get_recent_conversations table user_id max_conversation_history
      ∧ List.Pairwise (fun a b => b.created_at ≤ a.created_at)
        (build_context_for_user tc table user_id knowledge_chunks user_memory query
          query_embedding max_conversation_history max_context_tokens).conversation_history := by
    rw [build_context_for_user]
    rcases hcases with he | he <;> rw [he]
    · exact ⟨List.prefix_rfl, hfetch⟩
    · exact ⟨List.take_prefix _ _,
        List.Pairwise.sublist (List.take_sublist _ _) hfetch⟩
  refine ⟨hmain.1, hmain.2, ?_⟩
  rw [prompt_history_order]
  exact List.pairwise_reverse.2 hmain.2

/-- C5: the reported component token counts always sum to the reported
total, and whenever trimming applies (total over budget) the bundle holds
at most 3 knowledge chunks, 5 memory facts and 3 history turns with the
query and its embedding intact. -/
theorem C5_token_accounting (tc : String → Nat) (knowledge_chunks : List SearchResult)
    (conversation_history : List ConversationRow) (user_memory : List MemoryFact)
    (query : String) (query_embedding : List ℚ) (max_context_tokens : Nat) :
    (build_context tc knowledge_chunks conversation_history user_memory query
          query_embedding max_context_tokens).token_count.total
        = (build_context tc knowledge_chunks conversation_history user_memory query
            query_embedding max_context_tokens).token_count.knowledge
          + (build_context tc knowledge_chunks conversation_history user_memory query
              query_embedding max_context_tokens).token_count.history
          + (build_context tc knowledge_chunks conversation_history user_memory query
              query_embedding max_context_tokens).token_count.memory
          + (build_context tc knowledge_chunks conversation_history user_memory query
              query_embedding max_context_tokens).token_count.query
      ∧ (max_context_tokens
            < (build_context tc knowledge_chunks conversation_history user_memory query
                query_embedding max_context_tokens).token_count.total →
          (build_context tc knowledge_chunks conversation_history user_memory query
              query_embedding max_context_tokens).knowledge_chunks.length ≤ 3
            ∧ (build_context tc knowledge_chunks conversation_history user_memory query
                query_embedding max_context_tokens).user_memory.length ≤ 5
            ∧ (build_context tc knowledge_chunks conversation_history user_memory query
                query_embedding max_context_tokens).conversation_history.length ≤ 3
            ∧ (build_context tc knowledge_chunks conversation_history user_memory query
                query_embedding max_context_tokens).query = query
            ∧ (build_context tc knowledge_chunks conversation_history user_memory query
                query_embedding max_context_tokens).query_embedding = query_embedding) := by
  simp only [build_context]
  split
  · exact ⟨rfl, fun _ => ⟨List.length_take_le _ _, List.length_take_le _ _,
      List.length_take_le _ _, rfl, rfl⟩⟩
  · exact ⟨rfl, fun hlt => absurd hlt (by assumption)⟩

/-- Witness: an over-budget build is trimmed with the query kept. -/
theorem C5_token_accounting_witness :
    (build_context (fun s => s.length) [] [] [] "q" [] 0).knowledge_chunks.length ≤ 3
      ∧ (build_context (fun s => s.length) [] [] [] "q" [] 0).query = "q"
      ∧ (build_context (fun s => s.length) [] [] [] "q" [] 0).query_embedding = [] := by
  have h := (C5_token_accounting (fun s => s.length) [] [] [] "q" [] 0).2 (by decide)
  exact ⟨h.1, h.2.2.2.1, h.2.2.2.2⟩

/-- Simple-pattern keywords of classify_query_complexity
(src/api/vector_search.py lines 382 to 390). -/
def simple_keywords : List String :=
  ["what is", "how much", "when", "where", "who", "define", "explain"]

/-- Complex-pattern keywords of classify_query_complexity
(src/api/vector_search.py lines 391 to 400). -/
def complex_keywords : List String :=
  ["compare", "analyze", "design", "architecture", "implement", "migrate",
   "optimize", "troubleshoot"]

/-- Python substring containment test, pat in s. -/
def containsSub (s pat : String) : Bool :=
  s.data.tails.any (fun t => pat.data.isPrefixOf t)

/-- VectorSearchEngine.classify_query_complexity (src/api/vector_search.py
lines 369 to 413) with the tokenizer injected: token_count is the token
count of the query under tc, keywords are matched as substrings of the
lowercased query, and the rules are evaluated in source order. -/
def classify_query_complexity (tc : String → Nat) (query : String) : String × String :=
  let token_count := tc query
  let query_lower := pyLower query
  if simple_keywords.any (fun k => containsSub query_lower k) ∧ token_count < 100 then
    ("simple", "gpt-3.5-turbo")
  else if complex_keywords.any (fun k => containsSub query_lower k) ∨ 300 < token_count then
    ("complex", "gpt-4")
  else
    ("medium", "gpt-3.5-turbo")

/-- C8: classification is first-match-wins in the code's rule order with
low threshold 100 and high threshold 300, and the two scenario queries
classify as simple and complex respectively (the second despite its low
token count, because a complex keyword matches). -/
theorem C8_first_match_order (tc : String → Nat) (query : String) :
    ((∃ k ∈ simple_keywords, containsSub (pyLower query) k) ∧ tc query < 100 →
        classify_query_complexity tc query = ("simple", "gpt-3.5-turbo"))
      ∧ (¬ ((∃ k ∈ simple_keywords, containsSub (pyLower query) k) ∧ tc query < 100) →
          ((∃ k ∈ complex_keywords, containsSub (pyLower query) k) ∨ 300 < tc query) →
          classify_query_complexity tc query = ("complex", "gpt-4"))
      ∧ (¬ ((∃ k ∈ simple_keywords, containsSub (pyLower query) k) ∧ tc query < 100) →
          ¬ ((∃ k ∈ complex_keywords, containsSub (pyLower query) k) ∨ 300 < tc query) →
          classify_query_complexity tc query = ("medium", "gpt-3.5-turbo"))
      ∧ classify_query_complexity (fun s => s.length) "what is EC2?"
          = ("simple", "gpt-3.5-turbo")
      ∧ classify_query_complexity (fun s => s.length)
            "design and optimize our entire migration architecture"
          = ("complex", "gpt-4") := by
  refine ⟨?_, ?_, ?_, by decide, by decide⟩
  · intro h
    have hb : simple_keywords.any (fun k => containsSub (pyLower query) k) = true := by
      rcases h.1 with ⟨k, hk, hks⟩
      exact List.any_eq_true.2 ⟨k, hk, hks⟩
    simp only [classify_query_complexity]
    rw [if_pos ⟨hb, h.2⟩]
  · intro hn hc
    have hb1 : ¬ (simple_keywords.any (fun k => containsSub (pyLower query) k) = true
        ∧ tc query < 100) := by
      intro hcontra
      rcases List.any_eq_true.1 hcontra.1 with ⟨k, hk, hks⟩
      exact hn ⟨⟨k, hk, hks⟩, hcontra.2⟩
    have hb2 : complex_keywords.any (fun k => containsSub (pyLower query) k) = true
        ∨ 300 < tc query := by
      rcases hc with ⟨k, hk, hks⟩ | hgt
      · exact Or.inl (List.any_eq_true.2 ⟨k, hk, hks⟩)
      · exact Or.inr hgt
    simp only [classify_query_complexity]
    rw [if_neg hb1, if_pos hb2]
  · intro hn1 hn2
    have hb1 : ¬ (simple_keywords.any (fun k => containsSub (pyLower query) k) = true
        ∧ tc query < 100) := by
      intro hcontra
      rcases List.any_eq_true.1 hcontra.1 with ⟨k, hk, hks⟩
      exact hn1 ⟨⟨k, hk, hks⟩, hcontra.2⟩
    have hb2 : ¬ (complex_keywords.any (fun k => containsSub (pyLower query) k) = true
        ∨ 300 < tc query) := by
      intro hcontra
      rcases hcontra with ha | hgt
      · rcases List.any_eq_true.1 ha with ⟨k, hk, hks⟩
        exact hn2 (Or.inl ⟨k, hk, hks⟩)
      · exact hn2 (Or.inr hgt)
    simp only [classify_query_complexity]
    rw [if_neg hb1, if_neg hb2]

/-- Witness: a query with a simple keyword and a small token count is
classified simple through the first rule. -/
theorem C8_first_match_order_witness :
    classify_query_complexity (fun s => s.length) "when does it usually run"
      = ("simple", "gpt-3.5-turbo") :=
  (C8_first_match_order (fun s => s.length) "when does it usually run").1
    ⟨⟨"when", by decide, by decide⟩, by decide⟩

/-- Tokenizer interface of tiktoken as the processor uses it: encode text
to token ids and decode ids back to text. -/
structure Tokenizer where
  encode : String → List Nat
  decode : List Nat → String

/-- MarkdownProcessor.count_tokens (src/knowledge/processor.py lines 38 to
40): length of the encoding. -/
def count_tokens (t : Tokenizer) (text : String) : Nat := (t.encode text).length

/-- Character-level tokenizer used to run the chunker on concrete inputs:
every character is one token and decoding inverts encoding. -/
def charTok : Tokenizer :=
  { encode := fun s => s.data.map Char.toNat,
    decode := fun l => String.mk (l.map Char.ofNat) }

/-- Chunking configuration of MarkdownProcessor.__init__
(src/knowledge/processor.py lines 19 to 36); min_chunk_tokens is stored but
never read by the chunking paths. -/
structure ChunkConfig where
  min_chunk_tokens : Nat
  max_chunk_tokens : Nat
  overlap_tokens : Nat

/-- Python slice tokens[-n:]: the whole list when n is zero, otherwise the
last n entries. -/
def pyTail (n : Nat) (l : List Nat) : List Nat :=
  if n = 0 then l else l.drop (l.length - n)

/-- Sentence-ending punctuation class of the overlap regex. -/
def punctChar (c : Char) : Bool := c = '.' || c = '!' || c = '?'

/-- MarkdownProcessor._get_overlap (src/knowledge/processor.py lines 156
to 167): split the text on runs of sentence punctuation; when that yields
more than one piece take the stripped second-to-last piece as the overlap
provided its token count fits the overlap budget; otherwise decode the
literal last overlap_tokens tokens of the text. -/
def get_overlap (t : Tokenizer) (overlap_tokens : Nat) (text : String) : String :=
  let sentences := splitRuns punctChar text.data
  let fallback := t.decode (pyTail overlap_tokens (t.encode text))
  if 1 < sentences.length then
    let piece := String.mk (stripChars (sentences.getD (sentences.length - 2) []))
    if count_tokens t piece ≤ overlap_tokens then piece else fallback
  else fallback

/-- Python str.split with an explicit separator, keeping empty pieces,
fueled like replaceFuel (separators used are non-empty). -/
def splitSepFuel (sep : List Char) : Nat → List Char → List (List Char)
  | _, [] => [[]]
  | 0, l => [l]
  | fuel + 1, c :: cs =>
    if sep.isPrefixOf (c :: cs) then
      [] :: splitSepFuel sep fuel (cs.drop (sep.length - 1))
    else
      match splitSepFuel sep fuel cs with
      | [] => [[c]]
      | piece :: rest => (c :: piece) :: rest

/-- Python str.split with an explicit separator. -/
def pySplitOn (s sep : String) : List String :=
  (splitSepFuel sep.data s.data.length s.data).map String.mk

/-- Paragraph loop of MarkdownProcessor.create_chunks_from_section
(src/knowledge/processor.py lines 132 to 154): skip blank paragraphs;
when adding a paragraph would exceed the budget and the accumulator is
non-empty, emit the stripped accumulator and seed the next one with the
overlap excerpt, a blank line and the paragraph, recounting its tokens;
otherwise append the paragraph with a blank line, adding its token count.
The emitted chunk list is produced front-first, matching the appends of
the source. -/
def chunkLoop (t : Tokenizer) (cfg : ChunkConfig) (current_chunk : String)
    (current_tokens : Nat) : List String → List String
  | [] => if pyStrip current_chunk ≠ "" then [pyStrip current_chunk] else []
  | p :: rest =>
    let para := pyStrip p
    if para = "" then chunkLoop t cfg current_chunk current_tokens rest
    else
      let para_tokens := count_tokens t para
      if cfg.max_chunk_tokens < current_tokens + para_tokens ∧ current_chunk ≠ "" then
        let seeded := get_overlap t cfg.overlap_tokens current_chunk ++ "\n\n" ++ para
        pyStrip current_chunk :: chunkLoop t cfg seeded (count_tokens t seeded) rest
      else
        chunkLoop t cfg (current_chunk ++ "\n\n" ++ para)
          (current_tokens + para_tokens) rest

/-- Section record produced by split_by_sections. -/
structure MdSection where
  level : Nat
  title : String
  content : String
deriving DecidableEq

/-- MarkdownProcessor.create_chunks_from_section
(src/knowledge/processor.py lines 114 to 154): a section within the token
budget is one chunk; larger sections are split along blank-line paragraph
boundaries by chunkLoop starting from the section title (a falsy, that is
empty, title starts the accumulator empty). -/
def create_chunks_from_section (t : Tokenizer) (cfg : ChunkConfig)
    (sec : MdSection) : List String :=
  let content := pyStrip sec.content
  let token_count := count_tokens t content
  if token_count ≤ cfg.max_chunk_tokens then [content]
  else
    let paragraphs := pySplitOn content "\n\n"
    let current_chunk := if sec.title = "" then "" else sec.title
    chunkLoop t cfg current_chunk (count_tokens t current_chunk) paragraphs

/-- Header regex match of split_by_sections (src/knowledge/processor.py
line 94): one to six leading hash characters, at least one whitespace
character, then at least one further character; the captured title is the
rest after the greedy whitespace run (backtracking to a single whitespace
character when everything after the hashes is whitespace), stripped. -/
def headerMatch (line : String) : Option (Nat × String) :=
  let l := line.data
  let k := (l.takeWhile (fun c => c = '#')).length
  let rest := l.drop k
  match rest with
  | [] => none
  | c :: cs =>
    if 1 ≤ k ∧ k ≤ 6 ∧ wsChar c ∧ cs ≠ [] then
      let groupTwo := if (rest.dropWhile wsChar).isEmpty
        then rest.drop (rest.length - 1)
        else rest.dropWhile wsChar
      some (k, String.mk (stripChars groupTwo))
    else none

/-- Line loop of MarkdownProcessor.split_by_sections
(src/knowledge/processor.py lines 83 to 112): close the running section at
each header line when its content has non-whitespace, start a new section
from the header, accumulate other lines with their newline, and flush the
final section under the same non-blank test. -/
def sectionLoop (sections : List MdSection) (cur : MdSection) :
    List String → List MdSection
  | [] => if pyStrip cur.content ≠ "" then sections ++ [cur] else sections
  | line :: rest =>
    match headerMatch line with
    | some lt =>
      let kept := if pyStrip cur.content ≠ "" then sections ++ [cur] else sections
      sectionLoop kept
        { level := lt.1, title := lt.2, content := line ++ "\n" } rest
    | none =>
      sectionLoop sections { cur with content := cur.content ++ line ++ "\n" } rest

/-- MarkdownProcessor.split_by_sections (src/knowledge/processor.py lines
83 to 112). -/
def split_by_sections (content : String) : List MdSection :=
  sectionLoop [] { level := 0, title := "Introduction", content := "" }
    (pySplitOn content "\n")

/-- Python exceptions surfaced by the processing path. -/
inductive PyError where
  | ioError (msg : String)
  | zeroDivisionError
deriving DecidableEq

/-- Chunk record assembled by process_markdown_file; the hash, category and
global metadata fields are omitted since no claim concerns them. -/
structure ChunkData where
  content : String
  token_count : Nat
  chunk_index : Nat
  section_title : String
  section_level : Nat
deriving DecidableEq

/-- MarkdownProcessor.process_markdown_file (src/knowledge/processor.py
lines 228 to 283).  A read failure propagates, because read_markdown_file
re-raises (line 51).  Chunks are assembled in document order with a running
index.  The closing summary log line evaluates the average tokens per
chunk, the sum of chunk token counts divided by the number of chunks
(line 280), which raises ZeroDivisionError when no chunks were produced. -/
def process_markdown_file (t : Tokenizer) (cfg : ChunkConfig)
    (read_result : Except String String) : Except PyError (List ChunkData) :=
  match read_result with
  | .error e => .error (.ioError e)
  | .ok content =>
    let sections := split_by_sections content
    let all_chunks := (sections.foldl (fun acc sec =>
      (create_chunks_from_section t cfg sec).foldl (fun acc2 chunk_content =>
        (acc2.1 ++ [{ content := chunk_content,
                      token_count := count_tokens t chunk_content,
                      chunk_index := acc2.2,
                      section_title := sec.title,
                      section_level := sec.level }], acc2.2 + 1)) acc)
      (([] : List ChunkData), 0)).1
    if all_chunks.length = 0 then .error .zeroDivisionError
    else .ok all_chunks

/-- C6 fails on the code: an empty document produces no sections and hence
no chunks, and the summary logging then divides the token sum by the zero
chunk count, so the call raises ZeroDivisionError instead of returning zero
chunks; an unreadable file re-raises the read error instead of returning
zero chunks. -/
theorem C6_empty_or_unreadable_raises :
    process_markdown_file charTok
        { min_chunk_tokens := 500, max_chunk_tokens := 750, overlap_tokens := 50 }
        (Except.ok "")
      = Except.error PyError.zeroDivisionError
      ∧ process_markdown_file charTok
          { min_chunk_tokens := 500, max_chunk_tokens := 750, overlap_tokens := 50 }
          (Except.error "file unreadable")
        = Except.error (PyError.ioError "file unreadable") := by
  exact ⟨rfl, rfl⟩

/-- Right strip is an initial segment of its input. -/
theorem stripRight_start (l : List Char) :
    (l.reverse.dropWhile wsChar).reverse <+: l := by
  obtain ⟨t, ht⟩ := List.dropWhile_suffix (l := l.reverse) wsChar
  refine ⟨t.reverse, ?_⟩
  have h2 := congrArg List.reverse ht
  simpa [List.reverse_append] using h2

/-- Right strip of a list extends to a right strip of any extension. -/
theorem stripRight_append_start (x y : List Char) :
    (x.reverse.dropWhile wsChar).reverse
      <+: ((x ++ y).reverse.dropWhile wsChar).reverse := by
  rw [List.reverse_append, List.dropWhile_append]
  split
  · exact List.prefix_rfl
  · rw [List.reverse_append, List.reverse_reverse]
    exact (stripRight_start x).trans (List.prefix_append x _)

/-- The strip of a text starts every strip of an extension of that text. -/
theorem stripChars_append_start (a b : List Char) :
    stripChars a <+: stripChars (a ++ b) := by
  rw [stripChars, stripChars, List.dropWhile_append]
  split
  · rename_i hemp
    rw [List.isEmpty_iff.1 hemp]
    simp
  · exact stripRight_append_start (a.dropWhile wsChar) b

/-- String form of stripChars_append_start. -/
theorem pyStrip_append_start (a b : String) :
    (pyStrip a).data <+: (pyStrip (a ++ b)).data := by
  have h : (a ++ b).data = a.data ++ b.data := by
    cases a
    cases b
    rfl
  show stripChars a.data <+: stripChars (a ++ b).data
  rw [h]
  exact stripChars_append_start a.data b.data

/-- Shape of every chunk list chunkLoop can emit from a given accumulator:
each emitted chunk is the stripped accumulator after some further appends
ext, and each later chunk comes from an accumulator seeded with the overlap
excerpt of the full previous accumulator text, a blank line and the closing
paragraph. -/
inductive Produced (t : Tokenizer) (n : Nat) : String → List String → Prop
  | nil (cur : String) : Produced t n cur []
  | final (cur ext : String) : Produced t n cur [pyStrip (cur ++ ext)]
  | step (cur ext para : String) (rest : List String) :
      Produced t n (get_overlap t n (cur ++ ext) ++ "\n\n" ++ para) rest →
      Produced t n cur (pyStrip (cur ++ ext) :: rest)

/-- A list produced from an extended accumulator is produced from the
accumulator itself. -/
theorem produced_extend (t : Tokenizer) (n : Nat) (cur e : String)
    (out : List String) (h : Produced t n (cur ++ e) out) :
    Produced t n cur out := by
  cases h with
  | nil => exact Produced.nil cur
  | final _ ext =>
    rw [String.append_assoc cur e ext]
    exact Produced.final cur (e ++ ext)
  | step _ ext para rest hrest =>
    rw [String.append_assoc cur e ext]
    exact Produced.step cur (e ++ ext) para rest
      (by rwa [String.append_assoc cur e ext] at hrest)

/-- chunkLoop only emits chunk lists of the Produced shape. -/
theorem produced_chunkLoop (t : Tokenizer) (cfg : ChunkConfig) :
    (paras : List String) → (cur : String) → (tok : Nat) →
      Produced t cfg.overlap_tokens cur (chunkLoop t cfg cur tok paras)
  | [], cur, tok => by
    simp only [chunkLoop]
    split
    · have h := Produced.final (t := t) (n := cfg.overlap_tokens) cur ""
      rwa [String.append_empty] at h
    · exact Produced.nil cur
  | p :: rest, cur, tok => by
    simp only [chunkLoop]
    split
    · exact produced_chunkLoop t cfg rest cur tok
    · split
      · have h := Produced.step (t := t) (n := cfg.overlap_tokens) cur "" (pyStrip p)
          (chunkLoop t cfg
            (get_overlap t cfg.overlap_tokens cur ++ "\n\n" ++ pyStrip p)
            (count_tokens t
              (get_overlap t cfg.overlap_tokens cur ++ "\n\n" ++ pyStrip p))
            rest)
          (by
            rw [String.append_empty cur]
            exact produced_chunkLoop t cfg rest
              (get_overlap t cfg.overlap_tokens cur ++ "\n\n" ++ pyStrip p)
              (count_tokens t
                (get_overlap t cfg.overlap_tokens cur ++ "\n\n" ++ pyStrip p)))
        rwa [String.append_empty cur] at h
      · have h2 := produced_chunkLoop t cfg rest (cur ++ "\n\n" ++ pyStrip p)
          (tok + count_tokens t (pyStrip p))
        exact produced_extend t cfg.overlap_tokens cur ("\n\n" ++ pyStrip p) _
          (by
            rw [← String.append_assoc cur "\n\n" (pyStrip p)]
            exact h2)

/-- A produced list is empty or starts with a strip of an extension of the
accumulator. -/
theorem produced_head (t : Tokenizer) (n : Nat) (cur : String) (out : List String)
    (h : Produced t n cur out) :
    out = [] ∨ ∃ ext rest, out = pyStrip (cur ++ ext) :: rest := by
  cases h with
  | nil => exact Or.inl rfl
  | final _ ext => exact Or.inr ⟨ext, [], rfl⟩
  | step _ ext para rest _ => exact Or.inr ⟨ext, rest, rfl⟩

/-- In a produced chunk list, each chunk is a stripped accumulator text and
the next chunk starts with the stripped overlap excerpt computed from that
text. -/
theorem produced_adjacent (t : Tokenizer) (n : Nat) (cur : String)
    (out : List String) (h : Produced t n cur out) :
    ∀ (i : Nat) (c1 c2 : String), out[i]? = some c1 → out[i + 1]? = some c2 →
      ∃ prev, c1 = pyStrip prev
        ∧ (pyStrip (get_overlap t n prev)).data <+: c2.data := by
  induction h with
  | nil =>
    intro i c1 c2 h1 _
    simp at h1
  | final cur ext =>
    intro i c1 c2 h1 h2
    cases i with
    | zero => simp at h2
    | succ j => simp at h1
  | step cur ext para rest hrest ih =>
    intro i c1 c2 h1 h2
    cases i with
    | zero =>
      simp only [List.getElem?_cons_zero, Option.some.injEq] at h1
      simp only [List.getElem?_cons_succ] at h2
      rcases produced_head t n _ rest hrest with hempty | ⟨ext2, rest2, heq⟩
      · rw [hempty] at h2
        simp at h2
      · rw [heq] at h2
        simp only [List.getElem?_cons_zero, Option.some.injEq] at h2
        refine ⟨cur ++ ext, h1.symm, ?_⟩
        rw [← h2]
        have hp := pyStrip_append_start
          (get_overlap t n (cur ++ ext)) ("\n\n" ++ (para ++ ext2))
        simp only [String.append_assoc] at hp ⊢
        exact hp
    | succ j =>
      simp only [List.getElem?_cons_succ] at h1 h2
      exact ih j c1 c2 h1 h2

/-- C7 amended: whenever a section splits into several chunks, each chunk
is the stripped text of an accumulator and the following chunk begins with
the stripped overlap excerpt that _get_overlap computes from that full
accumulator text: the stripped second-to-last piece of the
sentence-punctuation split when that split has more than one piece and the
piece fits the overlap budget (this is the last sentence only when the text
ends in sentence punctuation), otherwise the literal last overlap-budget
tokens. -/
theorem C7_overlap_seeding (t : Tokenizer) (cfg : ChunkConfig) (sec : MdSection)
    (i : Nat) (c1 c2 : String)
    (h1 : (create_chunks_from_section t cfg sec)[i]? = some c1)
    (h2 : (create_chunks_from_section t cfg sec)[i + 1]? = some c2) :
    ∃ prev, c1 = pyStrip prev
      ∧ (pyStrip (get_overlap t cfg.overlap_tokens prev)).data <+: c2.data := by
  simp only [create_chunks_from_section] at h1 h2
  by_cases hfit : count_tokens t (pyStrip sec.content) ≤ cfg.max_chunk_tokens
  · rw [if_pos hfit] at h1 h2
    cases i with
    | zero => simp at h2
    | succ j => simp at h1
  · rw [if_neg hfit] at h1 h2
    exact produced_adjacent t cfg.overlap_tokens _ _
      (produced_chunkLoop t cfg _ _ _) i c1 c2 h1 h2

/-- Witness: in the concrete two-chunk run the second chunk starts with the
stripped overlap excerpt of the first accumulator. -/
theorem C7_overlap_seeding_witness :
    ∃ prev, "One. Two" = pyStrip prev
      ∧ (pyStrip (get_overlap charTok 50 prev)).data
          <+: ("One\n\nThree" : String).data :=
  C7_overlap_seeding charTok
    { min_chunk_tokens := 0, max_chunk_tokens := 10, overlap_tokens := 50 }
    { level := 0, title := "", content := "One. Two\n\nThree" } 0
    "One. Two" "One\n\nThree" (by decide) (by decide)

/-- Overlap excerpt as the specification words it: the previous chunk's
last sentence (the last piece with non-whitespace content of the
sentence-punctuation split, stripped) when its token count fits the
overlap budget, otherwise the literal last overlap-budget tokens. -/
def specLastSentence (text : String) : String :=
  String.mk (stripChars
    (((splitRuns punctChar text.data).filter
        (fun piece => ! (stripChars piece).isEmpty)).getLastD []))

/-- Overlap excerpt selection following the specification text, for
comparison with the source's get_overlap. -/
def specOverlapExcerpt (t : Tokenizer) (overlap_tokens : Nat) (text : String) :
    String :=
  if count_tokens t (specLastSentence text) ≤ overlap_tokens then
    specLastSentence text
  else t.decode (pyTail overlap_tokens (t.encode text))

/-- C7 as stated is false on the code: for a section whose first chunk is
"One. Two" (ending without sentence punctuation), the last sentence "Two"
fits the 50-token overlap budget, yet the second chunk starts with "One",
the stripped second-to-last piece of the punctuation split that the code
selects, and not with the last sentence. -/
theorem C7_counterexample_not_last_sentence :
    create_chunks_from_section charTok
        { min_chunk_tokens := 0, max_chunk_tokens := 10, overlap_tokens := 50 }
        { level := 0, title := "", content := "One. Two\n\nThree" }
      = ["One. Two", "One\n\nThree"]
      ∧ specOverlapExcerpt charTok 50 "One. Two" = "Two"
      ∧ (("Two" : String).data.isPrefixOf ("One\n\nThree" : String).data) = false := by
  decide
